import Mathlib

/-!
Shallow embedding of the matterbridge Plugin Lifecycle Supervisor
(src/plugins.ts) and the Control Protocol Dispatcher
(matterbridgeWebsocket.ts, wsMessageHandler), together with proofs about
the frozen specification claims.

Modelling conventions:
* JavaScript `undefined` on a transient field is modelled with `Option`
  (`none` = field absent / `undefined`).
* Truthiness of an optional boolean field (`if (plugin.loaded)`) is the
  predicate `isOn`: only `some true` is truthy.
* Plugin hook invocations (`onStart`, `onConfigure`, `onShutdown`), the
  dynamic import machinery and the external store are effectful; each
  operation takes an environment record describing the outcome of those
  external calls, and returns the produced value together with the
  updated plugin record and a flag telling whether the hook or the
  dynamic import was actually reached.
-/

/-- Configuration objects (PlatformConfig, schema json) are JSON objects
whose values the supervisor never inspects; they are modelled as flat
key/primitive-value lists, matching the type annotation
`Record<string, string | number | boolean>` used by the source. -/
inductive Prim where
  | null
  | bool (b : Bool)
  | num (n : Int)
  | str (s : String)
deriving DecidableEq, Repr

/-- A JSON value to the depth the dispatcher inspects it: primitives, or
an object one level deep with primitive fields. `undefined` models a missing
field (JavaScript `undefined`). JavaScript numbers are modelled as `Int`:
the dispatcher only echoes them and compares them with small integer
bounds. -/
inductive Json where
  | undefined
  | null
  | bool (b : Bool)
  | num (n : Int)
  | str (s : String)
  | obj (fs : List (String × Prim))
deriving DecidableEq, Repr

/-- PlatformConfig from matterbridgePlatform.ts: a JSON object. -/
def PlatformConfig := List (String × Prim)
deriving DecidableEq, Repr

/-- The live platform object returned by a plugin factory
(MatterbridgePlatform). Only the fields the supervisor reads or writes
are kept; the hook methods are modelled by the operation environments. -/
structure MatterbridgePlatform where
  name : String
  version : String
  type : String
  config : PlatformConfig
deriving DecidableEq, Repr

/-- RegisteredPlugin from matterbridgeTypes.ts, restricted to the fields
src/plugins.ts reads or writes. Transient fields are `Option`s because
the source sets them to `undefined` on shutdown. -/
structure RegisteredPlugin where
  name : String
  path : String
  type : String
  version : String
  description : String
  author : String
  enabled : Bool
  qrPairingCode : Option String
  manualPairingCode : Option String
  loaded : Option Bool
  started : Option Bool
  configured : Option Bool
  error : Option Bool
  connected : Option Bool
  locked : Option Bool
  registeredDevices : Option Nat
  addedDevices : Option Nat
  platform : Option MatterbridgePlatform
  configJson : Option PlatformConfig
  schemaJson : Option PlatformConfig
deriving DecidableEq, Repr

/-- JavaScript truthiness of an optional boolean field: `undefined` and
`false` are falsy, only `true` is truthy. -/
def isOn : Option Bool → Bool
  | some true => true
  | _ => false

/-- The persisted projection of a plugin record, exactly the object
literal built by `Plugins.saveToStorage` (src/plugins.ts lines 76 to 86). -/
structure PersistedPlugin where
  name : String
  path : String
  type : String
  version : String
  description : String
  author : String
  enabled : Bool
  qrPairingCode : Option String
  manualPairingCode : Option String
deriving DecidableEq, Repr

/-- The object literal pushed for each plugin by `saveToStorage`. -/
def persistedOf (p : RegisteredPlugin) : PersistedPlugin :=
  { name := p.name
    path := p.path
    type := p.type
    version := p.version
    description := p.description
    author := p.author
    enabled := p.enabled
    qrPairingCode := p.qrPairingCode
    manualPairingCode := p.manualPairingCode }

/-- `Plugins.saveToStorage`: converts the registry (in iteration order)
to an array of persisted projections, stores it, and returns the number
of records written (`plugins.length`). The external key/value store is
out of scope; the function returns the array that is handed to
`nodeContext.set` together with the returned count. -/
def saveToStorage (regs : List RegisteredPlugin) : List PersistedPlugin × Nat :=
  let plugins := regs.map persistedOf
  (plugins, plugins.length)

/-- Sets every non-persisted field of a record to `undefined`. Used to
state that the persisted projection carries no transient information. -/
def scrubTransients (p : RegisteredPlugin) : RegisteredPlugin :=
  { p with
    loaded := none
    started := none
    configured := none
    error := none
    connected := none
    locked := none
    registeredDevices := none
    addedDevices := none
    platform := none
    configJson := none
    schemaJson := none }

/-! ## Plugin resolver (`Plugins.resolve`) -/

/-- A plugin package.json manifest as far as `resolve` inspects it:
only the `name` field matters, with the empty string modelling a missing
or falsy name (`!packageJson.name`). -/
structure PackageNameJson where
  name : String
deriving DecidableEq, Repr

/-- The filesystem as `resolve` consults it. `access` is whether
`fs.access` succeeds on a path; `readParse` is the combined result of
`fs.readFile` followed by `JSON.parse` (`none` when either throws). -/
structure ResolveFS where
  access : String → Bool
  readParse : String → Option PackageNameJson

/-- `path.join`, modelled as separator concatenation; the paths in the
claims are already normalized. -/
def pathJoin (a b : String) : String := a ++ "/" ++ b

/-- `Plugins.resolve` (src/plugins.ts lines 98 to 126). `path.resolve`
is modelled as the identity on the already-absolute candidate. Note the
shape of the source: the existence check (`fs.access`) alone selects
between the direct candidate and the global-modules fallback; only the
selected candidate is then read, parsed and checked for a name. -/
def resolve (fs : ResolveFS) (globalModulesDirectory : String) (pluginPath : String) :
    Option String :=
  let pluginPath1 :=
    if pluginPath.endsWith "package.json" then pluginPath
    else pathJoin pluginPath "package.json"
  let packageJsonPath :=
    if fs.access pluginPath1 then pluginPath1
    else pathJoin globalModulesDirectory pluginPath1
  match fs.readParse packageJsonPath with
  | none => none
  | some packageJson =>
      if packageJson.name = "" then none else some packageJsonPath

/-- The candidate that the existence check selects inside `resolve`. -/
def resolveChosen (fs : ResolveFS) (globalModulesDirectory : String) (pluginPath : String) :
    String :=
  let pluginPath1 :=
    if pluginPath.endsWith "package.json" then pluginPath
    else pathJoin pluginPath "package.json"
  if fs.access pluginPath1 then pluginPath1
  else pathJoin globalModulesDirectory pluginPath1

/-- A path qualifies when its manifest is readable and parseable and
declares a (non-falsy) name. -/
def manifestQualifies (fs : ResolveFS) (p : String) : Bool :=
  match fs.readParse p with
  | none => false
  | some packageJson => packageJson.name ≠ ""

/-- Modelled from the spec, for comparison with `resolve`: append the
manifest filename when absent, then return the FIRST of the two
candidate paths (direct, then joined under the global-modules root)
whose manifest is readable and parseable and declares a name, and null
when neither qualifies. -/
def resolveSpec (fs : ResolveFS) (globalModulesDirectory : String) (pluginPath : String) :
    Option String :=
  let pluginPath1 :=
    if pluginPath.endsWith "package.json" then pluginPath
    else pathJoin pluginPath "package.json"
  if manifestQualifies fs pluginPath1 then some pluginPath1
  else if manifestQualifies fs (pathJoin globalModulesDirectory pluginPath1) then
    some (pathJoin globalModulesDirectory pluginPath1)
  else none

/-- Concrete filesystem refuting the two-candidate reading of the
resolver claim: the direct candidate exists (`fs.access` succeeds) but
its manifest does not parse, while the fallback under the global root
parses and declares a name. -/
def fsCE : ResolveFS :=
  { access := fun s => s = "plug/package.json"
    readParse := fun s =>
      if s = "globals/plug/package.json" then some { name := "plug" } else none }

/-! ## Lifecycle supervisor operations -/

/-- The specific condition reported by `Plugins.start` on each path
(the argument of the corresponding `log.error` / `log.info` call). -/
inductive StartMsg where
  | notLoaded
  | noPlatform
  | alreadyStarted
  | startedOk
  | startFailed
deriving DecidableEq, Repr

/-- Result of `Plugins.configure`: returned value, updated record, and
whether `platform.onConfigure` was invoked. -/
structure ConfOut where
  res : Option RegisteredPlugin
  st : RegisteredPlugin
  hookCalled : Bool
deriving DecidableEq, Repr

/-- `Plugins.configure` (src/plugins.ts lines 394 to 424). `ok` is
whether the awaited `platform.onConfigure()` call returns rather than
throws. The `savePluginConfig` side call touches only external storage
and is out of scope. Guard order follows the source: not loaded, not
started, no platform, already configured. -/
def configureOp (ok : Bool) (p : RegisteredPlugin) : ConfOut :=
  if !isOn p.loaded then ⟨none, p, false⟩
  else if !isOn p.started then ⟨none, p, false⟩
  else if p.platform.isNone then ⟨none, p, false⟩
  else if isOn p.configured then ⟨none, p, false⟩
  else if ok then
    let q := { p with configured := some true }
    ⟨some q, q, true⟩
  else ⟨none, { p with error := some true }, true⟩

/-- Environment of one `Plugins.start` call: whether the awaited
`platform.onStart(message)` call returns rather than throws, and the
same for the `platform.onConfigure()` call reached when the configure
cascade is requested. -/
structure StartEnv where
  onStartOk : Bool
  onConfigureOk : Bool
deriving DecidableEq, Repr

/-- Result of `Plugins.start`. -/
structure StartOut where
  res : Option RegisteredPlugin
  st : RegisteredPlugin
  hookCalled : Bool
  msg : StartMsg
deriving DecidableEq, Repr

/-- `Plugins.start` (src/plugins.ts lines 361 to 386). Guard order
follows the source: not loaded, no platform, already started. On hook
success `started` is set and, when `configure` was requested, the
configure operation runs on the updated record; the mutated record is
returned either way. On hook failure `error` is set and the result is
absent. -/
def startOp (env : StartEnv) (p : RegisteredPlugin) (configure : Bool) : StartOut :=
  if !isOn p.loaded then ⟨none, p, false, .notLoaded⟩
  else if p.platform.isNone then ⟨none, p, false, .noPlatform⟩
  else if isOn p.started then ⟨none, p, false, .alreadyStarted⟩
  else if env.onStartOk then
    let p1 := { p with started := some true }
    let p2 := if configure then (configureOp env.onConfigureOk p1).st else p1
    ⟨some p2, p2, true, .startedOk⟩
  else ⟨none, { p with error := some true }, true, .startFailed⟩

/-- The package.json fields `Plugins.load` stamps back onto the record,
with the source defaults already applied (`description ?? No
description`, `author ?? Unknown`). -/
structure PackageMeta where
  name : String
  version : String
  description : String
  author : String
deriving DecidableEq, Repr

/-- Environment of one `Plugins.load` call. `ok` abstracts whether any
step of the try block before the default-export check throws (manifest
read, JSON parse, entry resolution, dynamic import); `hasDefault` is
whether the imported module exposes a default export; `platformOut` is
the handle returned by the factory call; `config` and `schema` are the
values produced by `loadPluginConfig` / `loadPluginSchema`; `startEnv`
drives the optional start cascade. -/
structure LoadEnv where
  ok : Bool
  hasDefault : Bool
  platformOut : MatterbridgePlatform
  meta : PackageMeta
  config : PlatformConfig
  schema : PlatformConfig
  startEnv : StartEnv
deriving Repr

/-- Result of `Plugins.load`: the returned platform handle, the updated
record, and whether the dynamic import of the plugin module was
performed. -/
structure LoadOut where
  res : Option MatterbridgePlatform
  st : RegisteredPlugin
  imported : Bool
deriving Repr

/-- `Plugins.load` (src/plugins.ts lines 294 to 351). The source order:
not enabled returns undefined; an already bound platform returns that
handle; then the try block reads and imports the module. A module with
no default export, or any throw, sets `error` and returns undefined.
On the success path the factory result is stamped with identity fields,
the record receives metadata, the platform handle, `loaded`, zeroed
counters and the config and schema, the start cascade runs when
requested (with `configure=false`), and the platform handle is
returned. `error` is never cleared by a successful load. -/
def loadOp (env : LoadEnv) (p : RegisteredPlugin) (start : Bool) : LoadOut :=
  if !p.enabled then ⟨none, p, false⟩
  else if p.platform.isSome then ⟨p.platform, p, false⟩
  else if !env.ok then ⟨none, { p with error := some true }, false⟩
  else if !env.hasDefault then ⟨none, { p with error := some true }, true⟩
  else
    let platform :=
      { env.platformOut with
        name := env.meta.name
        config := env.config
        version := env.meta.version }
    let p1 :=
      { p with
        name := env.meta.name
        description := env.meta.description
        version := env.meta.version
        author := env.meta.author
        type := platform.type
        platform := some platform
        loaded := some true
        registeredDevices := some 0
        addedDevices := some 0
        configJson := some env.config
        schemaJson := some env.schema }
    let p2 := if start then (startOp env.startEnv p1 false).st else p1
    ⟨some platform, p2, true⟩

/-- Environment of one `Plugins.shutdown` call: whether the awaited
`platform.onShutdown(reason)` call returns rather than throws, and
whether the `matterbridge.removeAllBridgedDevices` call (reached only
when `removeAllDevices` is requested) returns rather than throws. -/
structure ShutdownEnv where
  onShutdownOk : Bool
  removeOk : Bool
deriving DecidableEq, Repr

/-- Result of `Plugins.shutdown`. -/
structure ShutOut where
  res : Option RegisteredPlugin
  st : RegisteredPlugin
  hookCalled : Bool
deriving DecidableEq, Repr

/-- The record after the field-clearing block of `Plugins.shutdown`
(src/plugins.ts lines 447 to 455): every transient flag, both counters
and the platform handle are set to `undefined`. -/
def clearedPlugin (p : RegisteredPlugin) : RegisteredPlugin :=
  { p with
    locked := none
    error := none
    loaded := none
    started := none
    configured := none
    connected := none
    platform := none
    registeredDevices := none
    addedDevices := none }

/-- `Plugins.shutdown` (src/plugins.ts lines 426 to 466). Guard order
follows the source: not loaded, not started, not configured, no
platform — each returns undefined without reaching the hook. When the
guards pass, `onShutdown` is awaited; on success the transient fields
are cleared, then `removeAllBridgedDevices` runs when requested (a
throw there is caught after the fields were already cleared), and the
cleared record is returned. A throw from `onShutdown` is caught with
the record untouched and the result absent. -/
def shutdownOp (env : ShutdownEnv) (p : RegisteredPlugin) (removeAllDevices : Bool) :
    ShutOut :=
  if !isOn p.loaded then ⟨none, p, false⟩
  else if !isOn p.started then ⟨none, p, false⟩
  else if !isOn p.configured then ⟨none, p, false⟩
  else if p.platform.isNone then ⟨none, p, false⟩
  else if env.onShutdownOk then
    let q := clearedPlugin p
    if removeAllDevices && !env.removeOk then ⟨none, q, true⟩
    else ⟨some q, q, true⟩
  else ⟨none, p, true⟩

/-! ## Reachable supervisor states -/

/-- One supervisor operation applied to a plugin record, with an
arbitrary environment for the external calls. -/
inductive SuperStep : RegisteredPlugin → RegisteredPlugin → Prop where
  | load (env : LoadEnv) (start : Bool) (p : RegisteredPlugin) :
      SuperStep p (loadOp env p start).st
  | start (env : StartEnv) (configure : Bool) (p : RegisteredPlugin) :
      SuperStep p (startOp env p configure).st
  | configure (ok : Bool) (p : RegisteredPlugin) :
      SuperStep p (configureOp ok p).st
  | shutdown (env : ShutdownEnv) (removeAllDevices : Bool) (p : RegisteredPlugin) :
      SuperStep p (shutdownOp env p removeAllDevices).st

/-- A fresh record has no transient lifecycle state: this is how `add`
creates records and how `loadFromStorage` revives persisted ones (the
persisted projection has no transient fields). -/
def freshTransients (p : RegisteredPlugin) : Prop :=
  p.loaded = none ∧ p.started = none ∧ p.configured = none ∧ p.platform = none

/-- Plugin records reachable from a fresh record by any sequence of
load / start / configure / shutdown operations. -/
inductive SuperReachable : RegisteredPlugin → Prop where
  | base (p : RegisteredPlugin) (h : freshTransients p) : SuperReachable p
  | step {p q : RegisteredPlugin} (hp : SuperReachable p) (hs : SuperStep p q) :
      SuperReachable q

/-- The state-monotonicity invariant of the data model: `configured`
implies `started` implies `loaded`, and no flag is truthy while the
platform handle is absent. -/
def invB (p : RegisteredPlugin) : Bool :=
  (!isOn p.configured || isOn p.started) &&
  (!isOn p.started || isOn p.loaded) &&
  (p.platform.isSome || (!isOn p.loaded && !isOn p.started && !isOn p.configured))

/-! ## Control protocol dispatcher (`wsMessageHandler`) -/

/-- Modelled from the spec: `isValidNumber` from ./utils/utils.js is not
under src; section 4.5 requires `id` to be a valid number, and section 6
requires numeric parameters to be at least a given minimum (endpoint at
least 1). -/
def isValidNumberJ (j : Json) : Bool :=
  match j with
  | .num _ => true
  | _ => false

/-- Modelled from the spec: `isValidNumber` with a minimum bound. -/
def isValidNumberMin (j : Json) (m : Int) : Bool :=
  match j with
  | .num n => m ≤ n
  | _ => false

/-- Modelled from the spec: `isValidString` from ./utils/utils.js is not
under src; section 4.5 requires `dst`, `src` and `method` to be
non-empty strings. -/
def isValidStringJ (j : Json) : Bool :=
  match j with
  | .str s => s ≠ ""
  | _ => false

/-- Modelled from the spec: `isValidString` with a minimum length
(section 6: packageName and plugin parameters need at least 10
characters). -/
def isValidStringMin (j : Json) (m : Nat) : Bool :=
  match j with
  | .str s => m ≤ s.length
  | _ => false

/-- Modelled from the spec: `isValidObject` from ./utils/utils.js is not
under src; section 4.5 requires `params` to be an object. -/
def isValidObjectJ (j : Json) : Bool :=
  match j with
  | .obj _ => true
  | _ => false

/-- A parsed inbound envelope, after `JSON.parse` succeeded. Each field
is the raw JSON value found at that key (`undefined` when the key is
missing); validation happens inside the handler. -/
structure WsData where
  id : Json
  dst : Json
  src : Json
  method : Json
  params : Json
deriving DecidableEq, Repr

/-- JavaScript member access `data.params.key` on the params object:
the primitive stored at the key, or `undefined` when absent. -/
def pget (params : Json) (key : String) : Json :=
  match params with
  | .obj fs =>
      match fs.lookup key with
      | some (.null) => .null
      | some (.bool b) => .bool b
      | some (.num n) => .num n
      | some (.str s) => .str s
      | none => .undefined
  | _ => .undefined

/-- The validation test of wsMessageHandler (part_001 line 70): id a
valid number, dst, src and method non-empty strings, params an object,
and dst equal to the fixed host identity. -/
def wsValid (d : WsData) : Bool :=
  isValidNumberJ d.id && isValidStringJ d.dst && isValidStringJ d.src &&
  isValidStringJ d.method && isValidObjectJ d.params && (d.dst == Json.str "Matterbridge")

/-- Success payloads carried in the `response` field of an outbound
envelope. Payloads whose contents are assembled from host state outside
the dispatcher (settings snapshot, plugin, device, cluster and
selection lists) are opaque tokens supplied by the environment: the
claims under verification concern only envelope shape and routing. -/
inductive RespVal where
  | pong
  | validTrue
  | txt (s : String)
  | payload (v : Nat)
deriving DecidableEq, Repr

/-- An outbound envelope as built by the `client.send(JSON.stringify`
calls: every send site writes `id` and `method` copied from the
request, the literal host identity as `src`, the request `src` as
`dst`, and then a `response` field, an `error` field, or neither
(restart and shutdown send nothing at all, so both fields are optional
in the model). `withExtras` records whether the send site adds further
informational fields (the clusters and select replies add plugin,
deviceName, serialNumber, endpoint and deviceTypes). -/
structure WsReply where
  id : Json
  method : Json
  src : String
  dst : Json
  response : Option RespVal
  error : Option String
  withExtras : Bool
deriving DecidableEq, Repr

/-- An error reply envelope echoing the request. -/
def mkErr (d : WsData) (msg : String) : WsReply :=
  { id := d.id, method := d.method, src := "Matterbridge", dst := d.src
    response := none, error := some msg, withExtras := false }

/-- A success reply envelope echoing the request. -/
def mkOk (d : WsData) (v : RespVal) : WsReply :=
  { id := d.id, method := d.method, src := "Matterbridge", dst := d.src
    response := some v, error := none, withExtras := false }

/-- A success reply that also carries extra informational fields. -/
def mkOkExtras (d : WsData) (v : RespVal) : WsReply :=
  { mkOk d v with withExtras := true }

/-- Host-level side effects other than sending on the client socket. -/
inductive HostEffect where
  | spawnInstall (pkg : Json)
  | spawnUninstall (pkg : Json)
  | restartProc
  | shutdownProc
deriving DecidableEq, Repr

/-- The node context as the login branch consults it: `password` is the
value of `nodeContext.get` at key password with default empty string. -/
structure NodeCtx where
  password : String
deriving DecidableEq, Repr

/-- Environment of one wsMessageHandler call: the outcome of every
external interaction the branches perform. `nodeContext` is `none` when
`this.nodeContext` is unset. The spawn results are the eventual
settlement of the `spawnCommand` promise (the reply sent from its then
or catch continuation is modelled as part of the handler output).
`plugins` is the plugin registry consulted by the select branches. -/
structure WsEnv where
  nodeContext : Option NodeCtx
  installResult : Except String String
  uninstallResult : Except String String
  settingsSnapshot : Nat
  pluginsList : Nat
  devicesList : Nat
  clustersList : Nat
  selectList : Nat
  selectEntityList : Nat
  plugins : List RegisteredPlugin
deriving Repr

/-- Output of one wsMessageHandler call: the envelopes written to the
requesting client (including those sent from promise continuations) and
the host-level side effects, in order. -/
structure WsOut where
  sent : List WsReply
  effects : List HostEffect
deriving Repr

/-- The /api/login arm of wsMessageHandler (part_001 lines 80 to 95):
a missing node context is an internal error; otherwise an empty stored
password accepts any request, a matching password parameter accepts,
anything else is the wrong-password error. -/
def loginBranch (env : WsEnv) (d : WsData) : WsOut :=
  match env.nodeContext with
  | none => ⟨[mkErr d "Internal error: nodeContext not found"], []⟩
  | some ctx =>
      if ctx.password = "" ∨ pget d.params "password" = Json.str ctx.password then
        ⟨[mkOk d .validTrue], []⟩
      else
        ⟨[mkErr d "Wrong password"], []⟩

/-- The /api/install arm (part_001 lines 96 to 108). -/
def installBranch (env : WsEnv) (d : WsData) : WsOut :=
  if !isValidStringMin (pget d.params "packageName") 10 then
    ⟨[mkErr d "Wrong parameter packageName in /api/install"], []⟩
  else
    match env.installResult with
    | .ok out => ⟨[mkOk d (.txt out)], [.spawnInstall (pget d.params "packageName")]⟩
    | .error e => ⟨[mkErr d e], [.spawnInstall (pget d.params "packageName")]⟩

/-- The /api/uninstall arm (part_001 lines 109 to 121). -/
def uninstallBranch (env : WsEnv) (d : WsData) : WsOut :=
  if !isValidStringMin (pget d.params "packageName") 10 then
    ⟨[mkErr d "Wrong parameter packageName in /api/uninstall"], []⟩
  else
    match env.uninstallResult with
    | .ok out => ⟨[mkOk d (.txt out)], [.spawnUninstall (pget d.params "packageName")]⟩
    | .error e => ⟨[mkErr d e], [.spawnUninstall (pget d.params "packageName")]⟩

/-- The /api/clusters arm (part_001 lines 180 to 276). -/
def clustersBranch (env : WsEnv) (d : WsData) : WsOut :=
  if !isValidStringMin (pget d.params "plugin") 10 then
    ⟨[mkErr d "Wrong parameter plugin in /api/clusters"], []⟩
  else if !isValidNumberMin (pget d.params "endpoint") 1 then
    ⟨[mkErr d "Wrong parameter endpoint in /api/clusters"], []⟩
  else
    ⟨[mkOkExtras d (.payload env.clustersList)], []⟩

/-- The /api/select arm (part_001 lines 277 to 289). -/
def selectBranch (env : WsEnv) (d : WsData) : WsOut :=
  if !isValidStringMin (pget d.params "plugin") 10 then
    ⟨[mkErr d "Wrong parameter plugin in /api/select"], []⟩
  else
    match env.plugins.find? (fun p => Json.str p.name == pget d.params "plugin") with
    | none => ⟨[mkErr d "Plugin not found in /api/select"], []⟩
    | some _ => ⟨[mkOkExtras d (.payload env.selectList)], []⟩

/-- The /api/select/entities arm (part_001 lines 290 to 302). -/
def selectEntitiesBranch (env : WsEnv) (d : WsData) : WsOut :=
  if !isValidStringMin (pget d.params "plugin") 10 then
    ⟨[mkErr d "Wrong parameter plugin in /api/select/entities"], []⟩
  else
    match env.plugins.find? (fun p => Json.str p.name == pget d.params "plugin") with
    | none => ⟨[mkErr d "Plugin not found in /api/select/entities"], []⟩
    | some _ => ⟨[mkOkExtras d (.payload env.selectEntityList)], []⟩

/-- `wsMessageHandler` (matterbridgeWebsocket.ts, part_001 lines 66 to
312), starting from a successfully parsed envelope (unparsable input is
caught earlier and produces no reply since no id is known). Branches
appear in source order; the longer arms are factored into the named
branch functions above, one per else-if arm of the source. The settings
branch also refreshes fields of `matterbridgeInformation` before
snapshotting it; that mutation targets host state outside the
dispatcher and the snapshot is an opaque environment value here. The
devices and clusters branches assemble their lists from the device
registry, likewise opaque. -/
def wsMessageHandler (env : WsEnv) (d : WsData) : WsOut :=
  if !wsValid d then
    ⟨[mkErr d "Invalid message"], []⟩
  else if d.method = Json.str "ping" then
    ⟨[mkOk d .pong], []⟩
  else if d.method = Json.str "/api/login" then
    loginBranch env d
  else if d.method = Json.str "/api/install" then
    installBranch env d
  else if d.method = Json.str "/api/uninstall" then
    uninstallBranch env d
  else if d.method = Json.str "/api/restart" then
    ⟨[], [.restartProc]⟩
  else if d.method = Json.str "/api/shutdown" then
    ⟨[], [.shutdownProc]⟩
  else if d.method = Json.str "/api/settings" then
    ⟨[mkOk d (.payload env.settingsSnapshot)], []⟩
  else if d.method = Json.str "/api/plugins" then
    ⟨[mkOk d (.payload env.pluginsList)], []⟩
  else if d.method = Json.str "/api/devices" then
    ⟨[mkOk d (.payload env.devicesList)], []⟩
  else if d.method = Json.str "/api/clusters" then
    clustersBranch env d
  else if d.method = Json.str "/api/select" then
    selectBranch env d
  else if d.method = Json.str "/api/select/entities" then
    selectEntitiesBranch env d
  else
    ⟨[mkErr d "Invalid method"], []⟩

/-- The recognized method names, in the order the dispatcher tests
them. -/
def wsMethods : List String :=
  ["ping", "/api/login", "/api/install", "/api/uninstall", "/api/restart",
   "/api/shutdown", "/api/settings", "/api/plugins", "/api/devices",
   "/api/clusters", "/api/select", "/api/select/entities"]

/-- The envelope-shape contract of every reply: id and method echoed,
src the host identity, dst the request source, and exactly one of the
response payload and the error string present. -/
def echoShape (d : WsData) (r : WsReply) : Prop :=
  r.id = d.id ∧ r.method = d.method ∧ r.src = "Matterbridge" ∧ r.dst = d.src ∧
    r.error.isSome = !r.response.isSome

/-! ## Concrete fixtures for witnesses and counterexamples -/

/-- A concrete platform handle as returned by a plugin factory. -/
def pf0 : MatterbridgePlatform :=
  { name := "", version := "", type := "DynamicPlatform", config := [] }

/-- A freshly registered plugin record, as `Plugins.add` creates it. -/
def basePlugin : RegisteredPlugin :=
  { name := "matterbridge-test-plugin"
    path := "/plugins/matterbridge-test-plugin/package.json"
    type := ""
    version := "1.0.0"
    description := "A test plugin"
    author := "author"
    enabled := true
    qrPairingCode := none
    manualPairingCode := none
    loaded := none
    started := none
    configured := none
    error := none
    connected := none
    locked := none
    registeredDevices := none
    addedDevices := none
    platform := none
    configJson := none
    schemaJson := none }

/-- A load environment in which every external step succeeds. -/
def loadEnv0 : LoadEnv :=
  { ok := true
    hasDefault := true
    platformOut := pf0
    meta :=
      { name := "matterbridge-test-plugin"
        version := "1.0.1"
        description := "A test plugin"
        author := "author" }
    config := [("debug", Prim.bool false)]
    schema := []
    startEnv := { onStartOk := true, onConfigureOk := true } }

/-- The record after a successful load with the start cascade: loaded
and started are truthy and the platform handle is bound. -/
def startedPluginW : RegisteredPlugin := (loadOp loadEnv0 basePlugin true).st

/-- A record that is loaded with a bound platform but neither started
nor configured (a load without the start cascade). -/
def loadedOnlyPlugin : RegisteredPlugin := (loadOp loadEnv0 basePlugin false).st

/-- A shutdown environment in which the hook and the device-removal
cascade both succeed. -/
def sdEnvOk : ShutdownEnv := { onShutdownOk := true, removeOk := true }

/-- A shutdown environment in which `onShutdown` throws. -/
def sdEnvThrow : ShutdownEnv := { onShutdownOk := false, removeOk := true }

/-- A fully running record: loaded, started and configured all truthy
with a bound platform handle. -/
def runningPlugin : RegisteredPlugin :=
  (configureOp true (loadOp loadEnv0 basePlugin true).st).st

/-- Counterexample record for the load guards: disabled while a
platform handle is still bound (reachable by loading a plugin and then
disabling it, since `disable` only flips `enabled`). -/
def pDisabledLoaded : RegisteredPlugin :=
  { basePlugin with enabled := false, platform := some pf0, loaded := some true }

/-- A start environment (the hook outcomes are irrelevant on the
guard-rejection paths). -/
def startEnv0 : StartEnv := { onStartOk := true, onConfigureOk := true }

/-- A dispatcher environment with every external interaction concrete. -/
def wsEnv0 : WsEnv :=
  { nodeContext := some { password := "" }
    installResult := Except.ok "installed"
    uninstallResult := Except.ok "uninstalled"
    settingsSnapshot := 0
    pluginsList := 1
    devicesList := 2
    clustersList := 3
    selectList := 4
    selectEntityList := 5
    plugins := [basePlugin] }

/-- A dispatcher environment whose stored password is non-empty. -/
def wsEnvPw : WsEnv := { wsEnv0 with nodeContext := some { password := "secret" } }

/-- A valid ping envelope with id 42. -/
def dPing : WsData :=
  { id := .num 42, dst := .str "Matterbridge", src := .str "console"
    method := .str "ping", params := .obj [] }

/-- A valid login envelope carrying a password parameter. -/
def dLogin : WsData :=
  { id := .num 7, dst := .str "Matterbridge", src := .str "console"
    method := .str "/api/login", params := .obj [("password", Prim.str "secret")] }

/-- A valid login envelope carrying a wrong password parameter. -/
def dLoginWrong : WsData :=
  { id := .num 8, dst := .str "Matterbridge", src := .str "console"
    method := .str "/api/login", params := .obj [("password", Prim.str "nope")] }

/-- A valid envelope with an unrecognized method. -/
def dUnknown : WsData :=
  { id := .num 9, dst := .str "Matterbridge", src := .str "console"
    method := .str "/api/nonsense", params := .obj [] }

/-- An envelope whose dst is not the host identity: it fails
validation. -/
def dBadDst : WsData :=
  { id := .num 10, dst := .str "SomeoneElse", src := .str "console"
    method := .str "ping", params := .obj [] }

/-! ## Invariant preservation lemmas -/

@[simp] theorem isOn_some_true : isOn (some true) = true := rfl

@[simp] theorem isOn_some_false : isOn (some false) = false := rfl

@[simp] theorem isOn_none : isOn none = false := rfl

theorem invB_configureOp (ok : Bool) (p : RegisteredPlugin) (h : invB p = true) :
    invB (configureOp ok p).st = true := by
  unfold configureOp
  split
  · exact h
  split
  · exact h
  split
  · exact h
  split
  · exact h
  split
  · rename_i h1 h2 h3 h4 h5
    simp only [Bool.not_eq_true', Bool.not_eq_false] at h1 h2
    have hp : p.platform.isSome = true := by
      cases hq : p.platform with
      | none => simp [hq] at h3
      | some _ => simp [hq]
    simp [invB, h1, h2, hp]
  · simpa [invB] using h

theorem invB_startOp (env : StartEnv) (p : RegisteredPlugin) (c : Bool)
    (h : invB p = true) : invB (startOp env p c).st = true := by
  unfold startOp
  split
  · exact h
  split
  · exact h
  split
  · exact h
  split
  · rename_i h1 h2 h3 h4
    simp only [Bool.not_eq_true', Bool.not_eq_false] at h1
    have hp : p.platform.isSome = true := by
      cases hq : p.platform with
      | none => simp [hq] at h2
      | some _ => simp [hq]
    have hinv1 : invB { p with started := some true } = true := by
      simp [invB, h1, hp]
    dsimp only
    cases c with
    | false => simpa using hinv1
    | true => exact invB_configureOp env.onConfigureOk _ hinv1
  · simpa [invB] using h

theorem invB_loadOp (env : LoadEnv) (p : RegisteredPlugin) (s : Bool)
    (h : invB p = true) : invB (loadOp env p s).st = true := by
  unfold loadOp
  split
  · exact h
  split
  · exact h
  split
  · simpa [invB] using h
  split
  · simpa [invB] using h
  · rename_i h1 h2 h3 h4
    have hpnone : p.platform = none := by
      cases hq : p.platform with
      | none => rfl
      | some x => simp [hq] at h2
    have hflags := h
    simp only [invB, hpnone, Option.isSome_none, Bool.false_or,
      Bool.and_eq_true, Bool.not_eq_true'] at hflags
    obtain ⟨-, ⟨hl, hs'⟩, hc⟩ := hflags
    dsimp only
    cases s with
    | false => simp [invB, hs', hc]
    | true => exact invB_startOp env.startEnv _ false (by simp [invB, hs', hc])

theorem invB_clearedPlugin (p : RegisteredPlugin) : invB (clearedPlugin p) = true := by
  simp [invB, clearedPlugin, isOn]

theorem invB_shutdownOp (env : ShutdownEnv) (p : RegisteredPlugin) (rad : Bool)
    (h : invB p = true) : invB (shutdownOp env p rad).st = true := by
  unfold shutdownOp
  split
  · exact h
  split
  · exact h
  split
  · exact h
  split
  · exact h
  split
  · split
    · exact invB_clearedPlugin p
    · exact invB_clearedPlugin p
  · exact h

theorem invB_superStep {p q : RegisteredPlugin} (h : invB p = true)
    (hs : SuperStep p q) : invB q = true := by
  cases hs with
  | load env start p => exact invB_loadOp env p start h
  | start env c p => exact invB_startOp env p c h
  | configure ok p => exact invB_configureOp ok p h
  | shutdown env rad p => exact invB_shutdownOp env p rad h

theorem invB_fresh (p : RegisteredPlugin) (h : freshTransients p) : invB p = true := by
  obtain ⟨hl, hs, hc, hp⟩ := h
  simp [invB, hl, hs, hc, hp, isOn]

theorem superReachable_inv {p : RegisteredPlugin} (h : SuperReachable p) :
    invB p = true := by
  induction h with
  | base p hp => exact invB_fresh p hp
  | step hp hs ih => exact invB_superStep ih hs


/-! ## Claim theorems: lifecycle supervisor -/

/-- Claim C1: for every plugin record managed by the supervisor, after
any sequence of load, start, configure and shutdown operations,
configured truthy implies started truthy, started truthy implies loaded
truthy, and none of loaded, started, configured is truthy while the
platform handle is absent. -/
theorem plugin_state_monotonicity (p : RegisteredPlugin) (h : SuperReachable p) :
    (isOn p.configured = true → isOn p.started = true) ∧
    (isOn p.started = true → isOn p.loaded = true) ∧
    (p.platform = none →
      isOn p.loaded = false ∧ isOn p.started = false ∧ isOn p.configured = false) := by
  have hb := superReachable_inv h
  simp only [invB, Bool.and_eq_true, Bool.or_eq_true, Bool.not_eq_true'] at hb
  obtain ⟨⟨h1, h2⟩, h3⟩ := hb
  refine ⟨?_, ?_, ?_⟩
  · intro hc
    rcases h1 with h | h
    · simp [hc] at h
    · exact h
  · intro hs
    rcases h2 with h | h
    · simp [hs] at h
    · exact h
  · intro hn
    simp only [hn, Option.isSome_none] at h3
    rcases h3 with h | h
    · simp at h
    · obtain ⟨⟨hl, hs⟩, hc⟩ := h
      exact ⟨hl, hs, hc⟩

/-- Witness for C1: the record after a successful load with the start
cascade is reachable and satisfies the invariant. -/
theorem plugin_state_monotonicity_witness :
    (isOn startedPluginW.configured = true → isOn startedPluginW.started = true) ∧
    (isOn startedPluginW.started = true → isOn startedPluginW.loaded = true) ∧
    (startedPluginW.platform = none →
      isOn startedPluginW.loaded = false ∧ isOn startedPluginW.started = false ∧
        isOn startedPluginW.configured = false) :=
  plugin_state_monotonicity startedPluginW
    (SuperReachable.step (SuperReachable.base basePlugin ⟨rfl, rfl, rfl, rfl⟩)
      (SuperStep.load loadEnv0 true basePlugin))

/-- Counterexample to claim C2: a record that is loaded with a bound
platform handle but not started is refused by `shutdown` without the
hook being invoked and without any flag being cleared, although the
claim says loaded alone suffices for shutdown to proceed. -/
theorem shutdown_guard_counterexample :
    isOn loadedOnlyPlugin.loaded = true ∧ isOn loadedOnlyPlugin.started = false ∧
    loadedOnlyPlugin.platform.isSome = true ∧
    (shutdownOp sdEnvOk loadedOnlyPlugin false).hookCalled = false ∧
    (shutdownOp sdEnvOk loadedOnlyPlugin false).res = none ∧
    (shutdownOp sdEnvOk loadedOnlyPlugin false).st = loadedOnlyPlugin := by decide

/-- Claim C2 as amended: `shutdown` requires loaded, started AND
configured to be truthy with a bound platform handle; when they all
hold (and the optional device-removal cascade does not throw) it
invokes the shutdown hook and on success clears all transient flags and
the platform handle, returning the cleared record; when the guard chain
fails it returns an absent result without invoking the hook and without
mutating the record. -/
theorem shutdown_full_chain_guards (env : ShutdownEnv) (p : RegisteredPlugin) (rad : Bool) :
    (isOn p.loaded = true → isOn p.started = true → isOn p.configured = true →
      p.platform.isSome = true → env.onShutdownOk = true →
      (rad = true → env.removeOk = true) →
      shutdownOp env p rad = ⟨some (clearedPlugin p), clearedPlugin p, true⟩) ∧
    (¬(isOn p.loaded = true ∧ isOn p.started = true ∧ isOn p.configured = true ∧
        p.platform.isSome = true) →
      shutdownOp env p rad = ⟨none, p, false⟩) := by
  constructor
  · intro hl hs hc hp hok hrem
    have hpn : p.platform.isNone = false := by
      cases hq : p.platform with
      | none => simp [hq] at hp
      | some _ => simp [hq]
    cases rad with
    | false => simp [shutdownOp, hl, hs, hc, hpn, hok]
    | true => simp [shutdownOp, hl, hs, hc, hpn, hok, hrem rfl]
  · intro hng
    cases hl : isOn p.loaded
    · simp [shutdownOp, hl]
    cases hs : isOn p.started
    · simp [shutdownOp, hl, hs]
    cases hc : isOn p.configured
    · simp [shutdownOp, hl, hs, hc]
    cases hq : p.platform
    · simp [shutdownOp, hl, hs, hc, hq]
    · exact absurd ⟨hl, hs, hc, by simp [hq]⟩ hng

/-- Witness for the amended C2: a fully running plugin is shut down with
the hook invoked and every transient field cleared, while a record that
is only loaded is refused. -/
theorem shutdown_full_chain_guards_witness :
    shutdownOp sdEnvOk runningPlugin false =
      ⟨some (clearedPlugin runningPlugin), clearedPlugin runningPlugin, true⟩ ∧
    shutdownOp sdEnvOk loadedOnlyPlugin false = ⟨none, loadedOnlyPlugin, false⟩ :=
  ⟨(shutdown_full_chain_guards sdEnvOk runningPlugin false).1
      (by decide) (by decide) (by decide) (by decide) rfl (fun _ => rfl),
   (shutdown_full_chain_guards sdEnvOk loadedOnlyPlugin false).2 (by decide)⟩

/-- Claim C3: when the onShutdown hook throws, no transient flag is
cleared and the platform handle stays bound (the record is exactly what
it was before the call) and shutdown returns an absent result. -/
theorem shutdown_hook_failure_preserves_state (env : ShutdownEnv) (p : RegisteredPlugin)
    (rad : Bool) (h : env.onShutdownOk = false) :
    (shutdownOp env p rad).st = p ∧ (shutdownOp env p rad).res = none := by
  unfold shutdownOp
  split
  · exact ⟨rfl, rfl⟩
  split
  · exact ⟨rfl, rfl⟩
  split
  · exact ⟨rfl, rfl⟩
  split
  · exact ⟨rfl, rfl⟩
  split
  · rename_i hok
    simp [h] at hok
  · exact ⟨rfl, rfl⟩

/-- Witness for C3: a throwing shutdown hook leaves a fully running
record untouched. -/
theorem shutdown_hook_failure_preserves_state_witness :
    (shutdownOp sdEnvThrow runningPlugin false).st = runningPlugin ∧
    (shutdownOp sdEnvThrow runningPlugin false).res = none :=
  shutdown_hook_failure_preserves_state sdEnvThrow runningPlugin false rfl

/-- Claim C4: calling start on a reachable record that is already
started reports the already-started condition, returns an absent
result, does not invoke the onStart hook, and leaves the record
unchanged. -/
theorem start_already_started_noop (env : StartEnv) (p : RegisteredPlugin) (c : Bool)
    (hr : SuperReachable p) (hs : isOn p.started = true) :
    startOp env p c = ⟨none, p, false, StartMsg.alreadyStarted⟩ := by
  have hb := superReachable_inv hr
  simp only [invB, Bool.and_eq_true, Bool.or_eq_true, Bool.not_eq_true'] at hb
  obtain ⟨⟨h1, h2⟩, h3⟩ := hb
  have hl : isOn p.loaded = true := by
    rcases h2 with h | h
    · simp [hs] at h
    · exact h
  have hp : p.platform.isNone = false := by
    rcases h3 with h | h
    · cases hq : p.platform with
      | none => simp [hq] at h
      | some _ => simp [hq]
    · obtain ⟨⟨-, hsf⟩, -⟩ := h
      simp [hs] at hsf
  simp [startOp, hl, hp, hs]

/-- Witness for C4: starting the already-started record produced by a
load with the start cascade is a no-op reporting already started. -/
theorem start_already_started_noop_witness :
    startOp startEnv0 startedPluginW false =
      ⟨none, startedPluginW, false, StartMsg.alreadyStarted⟩ :=
  start_already_started_noop startEnv0 startedPluginW false
    (SuperReachable.step (SuperReachable.base basePlugin ⟨rfl, rfl, rfl, rfl⟩)
      (SuperStep.load loadEnv0 true basePlugin)) (by decide)

/-- Counterexample to claim C5: on a record that is disabled while its
platform handle is still bound (reachable by loading and then
disabling, since disable only flips enabled), load returns an absent
result, not the existing handle as the claim states. -/
theorem load_disabled_bound_counterexample :
    pDisabledLoaded.platform = some pf0 ∧
    (loadOp loadEnv0 pDisabledLoaded false).res = none ∧
    (loadOp loadEnv0 pDisabledLoaded false).res ≠ pDisabledLoaded.platform ∧
    (loadOp loadEnv0 pDisabledLoaded false).st = pDisabledLoaded ∧
    (loadOp loadEnv0 pDisabledLoaded false).imported = false := by decide

/-- Claim C5 as amended: load on a disabled record returns an absent
result without importing or mutating; load on an ENABLED record whose
platform handle is already bound returns that existing handle without
importing or mutating (the enabled check runs first, so a disabled
record wins even when a handle is bound). -/
theorem load_guard_behavior (env : LoadEnv) (p : RegisteredPlugin) (s : Bool) :
    (p.enabled = false →
      (loadOp env p s).res = none ∧ (loadOp env p s).st = p ∧
        (loadOp env p s).imported = false) ∧
    (p.enabled = true → p.platform.isSome = true →
      (loadOp env p s).res = p.platform ∧ (loadOp env p s).st = p ∧
        (loadOp env p s).imported = false) := by
  constructor
  · intro h
    simp [loadOp, h]
  · intro h hp
    simp [loadOp, h, hp]

/-- Witness for the amended C5 at two concrete records. -/
theorem load_guard_behavior_witness :
    (loadOp loadEnv0 { basePlugin with enabled := false } false).res = none ∧
    (loadOp loadEnv0 { basePlugin with platform := some pf0 } false).res = some pf0 := by
  constructor
  · exact ((load_guard_behavior loadEnv0 { basePlugin with enabled := false } false).1 rfl).1
  · exact ((load_guard_behavior loadEnv0
      { basePlugin with platform := some pf0 } false).2 rfl (by decide)).1

/-! ## Claim theorems: resolver and persistence -/

/-- Counterexample to claim C8: a filesystem where the direct candidate
exists (access succeeds) but fails to parse, while the fallback under
the global-modules root parses and declares a name. The claim says the
first qualifying path of the two is returned, but resolve returns null:
the existence check alone commits to the direct candidate. -/
theorem resolve_two_tier_counterexample :
    resolve fsCE "globals" "plug" = none ∧
    resolveSpec fsCE "globals" "plug" = some "globals/plug/package.json" ∧
    resolve fsCE "globals" "plug" ≠ resolveSpec fsCE "globals" "plug" := by decide

/-- The body of resolve factored through the selected candidate. -/
theorem resolve_via_chosen (fs : ResolveFS) (dir input : String) :
    resolve fs dir input =
      if manifestQualifies fs (resolveChosen fs dir input) = true
      then some (resolveChosen fs dir input) else none := by
  have key : ∀ q : String,
      (match fs.readParse q with
        | none => none
        | some packageJson => if packageJson.name = "" then none else some q) =
        (if manifestQualifies fs q = true then some q else none) := by
    intro q
    cases hread : fs.readParse q with
    | none => simp [manifestQualifies, hread]
    | some pkg =>
        by_cases hn : pkg.name = "" <;> simp [manifestQualifies, hread, hn]
  exact key (resolveChosen fs dir input)

/-- Claim C8 as amended: resolve appends the manifest filename when the
input does not already end with it, uses the existence check alone to
pick between the direct candidate and the candidate joined under the
global-modules root, and returns the single selected candidate exactly
when its manifest is readable, parseable and declares a name (null
otherwise); the fallback is never consulted once the direct candidate
passes the existence check. -/
theorem resolve_characterization (fs : ResolveFS) (dir input p : String) :
    resolve fs dir input = some p ↔
      (p = resolveChosen fs dir input ∧
        manifestQualifies fs (resolveChosen fs dir input) = true) := by
  rw [resolve_via_chosen]
  by_cases hq : manifestQualifies fs (resolveChosen fs dir input) = true
  · simp [hq, eq_comm]
  · simp [hq]

/-- Claim C9: every record written by saveToStorage is the identity and
static-metadata projection, independent of every transient lifecycle
flag, counter, the platform handle and the config and schema fields,
and the returned count is the number of records written. -/
theorem save_to_storage_projection (regs : List RegisteredPlugin) :
    (saveToStorage regs).2 = regs.length ∧
    saveToStorage (regs.map scrubTransients) = saveToStorage regs := by
  constructor
  · simp [saveToStorage]
  · simp only [saveToStorage, List.map_map]
    rfl

/-! ## Claim theorems: control protocol dispatcher -/

theorem echoShape_mkErr (d : WsData) (s : String) : echoShape d (mkErr d s) := by
  simp [echoShape, mkErr]

theorem echoShape_mkOk (d : WsData) (v : RespVal) : echoShape d (mkOk d v) := by
  simp [echoShape, mkOk]

theorem echoShape_mkOkExtras (d : WsData) (v : RespVal) :
    echoShape d (mkOkExtras d v) := by
  simp [echoShape, mkOkExtras, mkOk]

/-- Every envelope the handler writes back echoes the request and
carries exactly one of response and error (this holds even for the
invalid-message reply). -/
theorem ws_sent_shape (env : WsEnv) (d : WsData) :
    ∀ r ∈ (wsMessageHandler env d).sent, echoShape d r := by
  have hlogin : ∀ r ∈ (loginBranch env d).sent, echoShape d r := by
    intro r hr
    unfold loginBranch at hr
    repeat' split at hr
    all_goals rw [List.mem_singleton] at hr
    all_goals subst hr
    all_goals first
      | exact echoShape_mkErr d _
      | exact echoShape_mkOk d _
  have hinstall : ∀ r ∈ (installBranch env d).sent, echoShape d r := by
    intro r hr
    unfold installBranch at hr
    repeat' split at hr
    all_goals rw [List.mem_singleton] at hr
    all_goals subst hr
    all_goals first
      | exact echoShape_mkErr d _
      | exact echoShape_mkOk d _
  have huninstall : ∀ r ∈ (uninstallBranch env d).sent, echoShape d r := by
    intro r hr
    unfold uninstallBranch at hr
    repeat' split at hr
    all_goals rw [List.mem_singleton] at hr
    all_goals subst hr
    all_goals first
      | exact echoShape_mkErr d _
      | exact echoShape_mkOk d _
  have hclusters : ∀ r ∈ (clustersBranch env d).sent, echoShape d r := by
    intro r hr
    unfold clustersBranch at hr
    repeat' split at hr
    all_goals rw [List.mem_singleton] at hr
    all_goals subst hr
    all_goals first
      | exact echoShape_mkErr d _
      | exact echoShape_mkOkExtras d _
  have hselect : ∀ r ∈ (selectBranch env d).sent, echoShape d r := by
    intro r hr
    unfold selectBranch at hr
    repeat' split at hr
    all_goals rw [List.mem_singleton] at hr
    all_goals subst hr
    all_goals first
      | exact echoShape_mkErr d _
      | exact echoShape_mkOkExtras d _
  have hselectE : ∀ r ∈ (selectEntitiesBranch env d).sent, echoShape d r := by
    intro r hr
    unfold selectEntitiesBranch at hr
    repeat' split at hr
    all_goals rw [List.mem_singleton] at hr
    all_goals subst hr
    all_goals first
      | exact echoShape_mkErr d _
      | exact echoShape_mkOkExtras d _
  intro r hr
  unfold wsMessageHandler at hr
  iterate 13
    (rcases em _ with hc | hc;
     · rw [if_pos hc] at hr
       first
         | exact hlogin r hr
         | exact hinstall r hr
         | exact huninstall r hr
         | exact hclusters r hr
         | exact hselect r hr
         | exact hselectE r hr
         | exact absurd hr (List.not_mem_nil r)
         | (rw [List.mem_singleton] at hr; subst hr;
            first
              | exact echoShape_mkErr d _
              | exact echoShape_mkOk d _)
     rw [if_neg hc] at hr)
  rw [List.mem_singleton] at hr
  subst hr
  exact echoShape_mkErr d _

/-- Claim C6: for every parsed envelope that passes validation, every
reply sent echoes the request id and method, sets src to the host
identity and dst to the request src, and carries exactly one of a
response payload or an error string; a valid ping envelope yields the
pong reply, and any unrecognized method yields the invalid-method error
reply rather than no reply. -/
theorem ws_reply_echo_and_ping (env : WsEnv) (d : WsData) (hv : wsValid d = true) :
    (∀ r ∈ (wsMessageHandler env d).sent, echoShape d r) ∧
    (d.method = Json.str "ping" →
      (wsMessageHandler env d).sent = [mkOk d RespVal.pong]) ∧
    ((∀ m ∈ wsMethods, d.method ≠ Json.str m) →
      (wsMessageHandler env d).sent = [mkErr d "Invalid method"]) := by
  refine ⟨ws_sent_shape env d, ?_, ?_⟩
  · intro hm
    simp [wsMessageHandler, hv, hm]
  · intro hnm
    have h01 := hnm "ping" (by simp [wsMethods])
    have h02 := hnm "/api/login" (by simp [wsMethods])
    have h03 := hnm "/api/install" (by simp [wsMethods])
    have h04 := hnm "/api/uninstall" (by simp [wsMethods])
    have h05 := hnm "/api/restart" (by simp [wsMethods])
    have h06 := hnm "/api/shutdown" (by simp [wsMethods])
    have h07 := hnm "/api/settings" (by simp [wsMethods])
    have h08 := hnm "/api/plugins" (by simp [wsMethods])
    have h09 := hnm "/api/devices" (by simp [wsMethods])
    have h10 := hnm "/api/clusters" (by simp [wsMethods])
    have h11 := hnm "/api/select" (by simp [wsMethods])
    have h12 := hnm "/api/select/entities" (by simp [wsMethods])
    simp [wsMessageHandler, hv, h01, h02, h03, h04, h05, h06, h07, h08, h09,
      h10, h11, h12]

/-- Witness for C6: the concrete ping envelope with id 42 gets the pong
reply, and a concrete unrecognized method gets the invalid-method error
reply. -/
theorem ws_reply_echo_and_ping_witness :
    (wsMessageHandler wsEnv0 dPing).sent = [mkOk dPing RespVal.pong] ∧
    (wsMessageHandler wsEnv0 dUnknown).sent = [mkErr dUnknown "Invalid method"] :=
  ⟨(ws_reply_echo_and_ping wsEnv0 dPing (by decide)).2.1 rfl,
   (ws_reply_echo_and_ping wsEnv0 dUnknown (by decide)).2.2 (by decide)⟩

/-- Claim C7: every parsed envelope that fails validation gets exactly
one error reply that carries the original id and method with the host
identity as src and the request src as dst, and the handler performs no
host effect; the handler is a total function, so no input crashes the
host. -/
theorem ws_invalid_envelope_error (env : WsEnv) (d : WsData) (hv : wsValid d = false) :
    (wsMessageHandler env d).sent = [mkErr d "Invalid message"] ∧
    (wsMessageHandler env d).effects = [] := by
  constructor <;> simp [wsMessageHandler, hv]

/-- Witness for C7: a concrete envelope addressed to the wrong dst gets
exactly the invalid-message reply. -/
theorem ws_invalid_envelope_error_witness :
    (wsMessageHandler wsEnv0 dBadDst).sent = [mkErr dBadDst "Invalid message"] ∧
    (wsMessageHandler wsEnv0 dBadDst).effects = [] :=
  ws_invalid_envelope_error wsEnv0 dBadDst (by decide)

/-- Claim C10: in the /api/login branch, an empty stored password makes
every request succeed with valid true regardless of the password
parameter; a non-empty stored password succeeds exactly when the
password parameter equals it and otherwise yields the wrong-password
error. -/
theorem ws_login_password_check (env : WsEnv) (d : WsData) (ctx : NodeCtx)
    (hctx : env.nodeContext = some ctx) (hv : wsValid d = true)
    (hm : d.method = Json.str "/api/login") :
    (ctx.password = "" → (wsMessageHandler env d).sent = [mkOk d RespVal.validTrue]) ∧
    (pget d.params "password" = Json.str ctx.password →
      (wsMessageHandler env d).sent = [mkOk d RespVal.validTrue]) ∧
    (ctx.password ≠ "" → pget d.params "password" ≠ Json.str ctx.password →
      (wsMessageHandler env d).sent = [mkErr d "Wrong password"]) := by
  refine ⟨?_, ?_, ?_⟩
  · intro hpw
    simp [wsMessageHandler, loginBranch, hv, hm, hctx, hpw]
  · intro hpw
    simp [wsMessageHandler, loginBranch, hv, hm, hctx, hpw]
  · intro hpw hne
    simp [wsMessageHandler, loginBranch, hv, hm, hctx, hpw, hne]

/-- Witness for C10: with an empty stored password a login with any
parameter succeeds; with the stored password secret, the matching
parameter succeeds and a wrong one gets the wrong-password error. -/
theorem ws_login_password_check_witness :
    (wsMessageHandler wsEnv0 dLogin).sent = [mkOk dLogin RespVal.validTrue] ∧
    (wsMessageHandler wsEnvPw dLogin).sent = [mkOk dLogin RespVal.validTrue] ∧
    (wsMessageHandler wsEnvPw dLoginWrong).sent = [mkErr dLoginWrong "Wrong password"] :=
  ⟨(ws_login_password_check wsEnv0 dLogin { password := "" } rfl (by decide) rfl).1 rfl,
   (ws_login_password_check wsEnvPw dLogin { password := "secret" } rfl (by decide)
      rfl).2.1 (by decide),
   (ws_login_password_check wsEnvPw dLoginWrong { password := "secret" } rfl (by decide)
      rfl).2.2 (by decide) (by decide)⟩
